import Mathlib

/-!
Verification of `helusers/_oidc_auth_impl.py` (django-helusers).

The source defines `ApiTokenAuthentication`, a DRF authenticator for OIDC
bearer tokens.  This development shallowly embeds its logic:

* JSON payloads (Python dicts) are association lists `List (String × JValue)`,
  with `dictGet`/`dictSet` modelling Python `dict.get` / `dict.__setitem__`.
* Python `bytes.split()` (no argument: split on runs of whitespace, dropping
  empty pieces) is `pySplit`; Python `str.lower()` is `lowerStr` (ASCII, which
  covers every scheme string the code compares).
* External collaborators (JWT decode, claim validation, the user resolver,
  HTTP GET) are oracle parameters of `authenticate` / `get_oidc_config`.
* Parts of the repository that the claims need but that are not under `src/`
  (`UserAuthorization.has_api_scope_with_prefix` from `helusers/authz.py`, the
  TTL `cache` decorator from the external `drf-oidc-auth` dependency, and the
  essential-claims check performed by the downstream validator) are modelled
  from the spec and marked as such in their doc comments.
-/

set_option autoImplicit false

namespace Helusers

/-- JSON-ish values as they occur in a decoded JWT payload. -/
inductive JValue where
  | str (s : String)
  | arr (l : List JValue)
  | num (n : Int)
  | bool (b : Bool)
  | null
deriving Repr

/-- A decoded JWT payload: a Python dict from claim names to values. -/
def Payload := List (String × JValue)

/-- Python `dict.get k`: the value at the first matching key, if any. -/
def dictGet {α : Type} : List (String × α) → String → Option α
  | [], _ => none
  | (k', v) :: rest, k => if k' = k then some v else dictGet rest k

/-- Python `d[k] = v`: replace the value at an existing key in place,
append the pair when the key is absent. -/
def dictSet {α : Type} : List (String × α) → String → α → List (String × α)
  | [], k, v => [(k, v)]
  | (k', v') :: rest, k, v =>
      if k' = k then (k, v) :: rest else (k', v') :: dictSet rest k v

theorem dictGet_dictSet_same {α : Type} (d : List (String × α)) (k : String) (v : α) :
    dictGet (dictSet d k v) k = some v := by
  induction d with
  | nil => simp [dictGet, dictSet]
  | cons hd tl ih =>
      obtain ⟨k', v'⟩ := hd
      by_cases h : k' = k
      · simp [dictGet, dictSet, h]
      · simp [dictGet, dictSet, h, ih]

theorem dictGet_dictSet_ne {α : Type} (d : List (String × α)) (k k' : String) (v : α)
    (h : k' ≠ k) : dictGet (dictSet d k v) k' = dictGet d k' := by
  have hk : k ≠ k' := Ne.symm h
  induction d with
  | nil => simp [dictGet, dictSet, hk]
  | cons hd tl ih =>
      obtain ⟨k₀, v₀⟩ := hd
      by_cases h₀ : k₀ = k
      · subst h₀
        simp [dictGet, dictSet, hk]
      · simp only [dictSet, if_neg h₀]
        by_cases h₁ : k₀ = k'
        · simp [dictGet, h₁]
        · simp [dictGet, h₁, ih]

theorem mem_dictSet_same {α : Type} (d : List (String × α)) (k : String) (v : α) :
    (k, v) ∈ dictSet d k v := by
  induction d with
  | nil => simp [dictSet]
  | cons hd tl ih =>
      obtain ⟨k', v'⟩ := hd
      by_cases h : k' = k
      · simp [dictSet, h]
      · simp only [dictSet, if_neg h]
        exact List.mem_cons_of_mem _ ih

/--
The `amr` fix-up in `ApiTokenAuthentication.authenticate`
(`_oidc_auth_impl.py` lines 65–71):

    if isinstance(payload.get("amr"), str):
        payload["amr"] = [payload["amr"]]
-/
def normalize_amr (p : Payload) : Payload :=
  match dictGet p "amr" with
  | some (JValue.str s) => dictSet p "amr" (JValue.arr [JValue.str s])
  | _ => p

theorem normalize_amr_of_str (p : Payload) (s : String)
    (h : dictGet p "amr" = some (JValue.str s)) :
    normalize_amr p = dictSet p "amr" (JValue.arr [JValue.str s]) := by
  simp [normalize_amr, h]

theorem normalize_amr_of_not_str (p : Payload)
    (h : ∀ s : String, dictGet p "amr" ≠ some (JValue.str s)) :
    normalize_amr p = p := by
  unfold normalize_amr
  cases hg : dictGet p "amr" with
  | none => rfl
  | some v =>
      cases v with
      | str s => exact absurd hg (h s)
      | arr l => rfl
      | num n => rfl
      | bool b => rfl
      | null => rfl

/-- A configuration value that Python may hold as a single `str` or as a
sequence of strings (the `ISSUER` / `AUDIENCE` settings). -/
inductive StrOrList where
  | str (s : String)
  | list (l : List String)
deriving Repr, DecidableEq

/-- The slice of `api_token_auth_settings` that `ApiTokenAuthentication`
reads (`self.settings.…` in `_oidc_auth_impl.py`). -/
structure Settings where
  AUDIENCE : StrOrList
  ISSUER : StrOrList
  AUTH_SCHEME : Option String
  REQUIRE_API_SCOPE_FOR_AUTHENTICATION : Bool
  API_SCOPE_PREFIX : String
  OIDC_CONFIG_EXPIRATION_TIME : Nat

/-- The audience normalization inside `claims_options` (lines 28–30):
`audiences = self.settings.AUDIENCE; if isinstance(audiences, str):
audiences = [self.settings.AUDIENCE]`. -/
def audList : StrOrList → List String
  | StrOrList.str s => [s]
  | StrOrList.list l => l

/-- The value stored under a key of authlib-style claims options:
`{"essential": …, "values": …}`. -/
structure ClaimOption where
  essential : Bool
  values : List String
deriving Repr, DecidableEq

/-- `ApiTokenAuthentication.claims_options` (lines 25–36): take the base
options produced by `super().claims_options` (external, a parameter here)
and overwrite the `"aud"` entry with an essential option holding the
normalized audience list. -/
def claims_options (s : Settings) (base : List (String × ClaimOption)) :
    List (String × ClaimOption) :=
  dictSet base "aud" (ClaimOption.mk true (audList s.AUDIENCE))

/-- `ApiTokenAuthentication.get_audiences` (lines 117–118):
`return {self.settings.AUDIENCE}` — a one-element set holding the RAW
setting value (modelled as a one-element list). -/
def get_audiences (s : Settings) : List StrOrList :=
  [s.AUDIENCE]

/-- Modelled from the spec: the claim validation performed downstream by the
external JOSE library on the claims options (`spec.md` §4.3: "audience check
is essential: absence of `aud` itself is a failure") — every claim whose
option is marked essential must be present in the payload. -/
def essential_check (opts : List (String × ClaimOption)) (p : Payload) : Bool :=
  opts.all (fun kv => !kv.2.essential || (dictGet p kv.1).isSome)

/-- The whitespace characters of Python's no-argument `split()`. -/
def isPyWhitespace (c : Char) : Bool :=
  c = ' ' || c = '\t' || c = '\n' || c = '\r' || c = '\x0b' || c = '\x0c'

/-- Worker for `pySplit`: `acc` holds the current token reversed. -/
def pySplitGo : List Char → List Char → List (List Char)
  | [], acc => if acc = [] then [] else [acc.reverse]
  | c :: cs, acc =>
      if isPyWhitespace c then
        (if acc = [] then [] else [acc.reverse]) ++ pySplitGo cs []
      else
        pySplitGo cs (c :: acc)

/-- Python's `s.split()` with no argument: split on runs of whitespace,
dropping empty pieces (used on the `Authorization` header, line 94). -/
def pySplit (s : String) : List String :=
  (pySplitGo s.data []).map String.mk

/-- Python's `str.lower()`, restricted to ASCII (sufficient for the
auth-scheme comparison on line 98). -/
def lowerStr (s : String) : String :=
  String.mk (s.data.map Char.toLower)

/-- `ApiTokenAuthentication.auth_scheme` (lines 38–40):
`self.settings.AUTH_SCHEME or 'Bearer'` — Python `or` falls back on the
falsy values `None` and `""`. -/
def auth_scheme (s : Settings) : String :=
  match s.AUTH_SCHEME with
  | none => "Bearer"
  | some v => if v = "" then "Bearer" else v

/-- Outcome of `get_jwt_value`: Python `None`, a raised
`AuthenticationFailed`, or the extracted token. -/
inductive JwtValueResult where
  | noCredential
  | failed (msg : String)
  | token (t : String)
deriving Repr, DecidableEq

/-- `ApiTokenAuthentication.get_jwt_value` (lines 93–109).  The request is
represented by its `Authorization` header value; DRF's
`get_authorization_header` yields `b""` for an absent header, so an absent
header is the empty string here. -/
def get_jwt_value (s : Settings) (header : String) : JwtValueResult :=
  if pySplit header = [] ∨
      lowerStr ((pySplit header).headD "") ≠ lowerStr (auth_scheme s) then
    JwtValueResult.noCredential
  else if (pySplit header).length = 1 then
    JwtValueResult.failed "Invalid Authorization header. No credentials provided"
  else if (pySplit header).length > 2 then
    JwtValueResult.failed
      "Invalid Authorization header. Credentials string should not contain spaces."
  else
    JwtValueResult.token ((pySplit header).getD 1 "")

/-- Modelled from the spec: the scope set of an authorization
(`helusers/authz.py`, not under `src/`): "derived from a scope-bearing
claim, typically space-delimited in the token" (`spec.md` §4.4). -/
def apiScopes (p : Payload) : List String :=
  match dictGet p "scope" with
  | some (JValue.str s) => pySplit s
  | _ => []

/-- Modelled from the spec: `UserAuthorization` (`helusers/authz.py`, not
under `src/`) wraps `(user, claims, settings)`; read-only after
construction (`spec.md` §3, §4.4). -/
structure UserAuthorization (U : Type) where
  user : U
  claims : Payload
  settings : Settings

/-- Modelled from the spec: `UserAuthorization.has_api_scope_with_prefix`
(`helusers/authz.py`, not under `src/`): "true iff the authorization's scope
set contains at least one scope value that starts with `prefix`"
(`spec.md` §4.4). -/
def hasApiScopeWithPrefix {U : Type} (a : UserAuthorization U) (pfx : String) : Bool :=
  (apiScopes a.claims).any (fun sc => List.isPrefixOf pfx.data sc.data)

/-- The message of the `AuthenticationFailed` raised on a missing API scope
(lines 87–89), after `.format(api_scope=api_scope)`. -/
def scope_error_message (pfx : String) : String :=
  "Not authorized for API scope \"" ++ pfx ++ "\""

/-- Result of `ApiTokenAuthentication.authenticate`: Python `None`, a raised
`AuthenticationFailed` with its message, or the `(user, auth)` pair. -/
inductive AuthResult (U : Type) where
  | noAuth
  | failure (msg : String)
  | success (user : U) (auth : UserAuthorization U)

/-- `ApiTokenAuthentication.authenticate` (lines 54–91).  The external
collaborators are parameters: `decode_jwt` (signature check, inherited from
drf-oidc-auth), `validate_claims` (inherited claim validation) and
`user_resolver` (the `USER_RESOLVER` setting, raising `ValueError`);
an `Except.error` models the exception the Python callee raises.  The
request is represented by its `Authorization` header string. -/
def authenticate {U : Type} (s : Settings)
    (decode_jwt : String → Except String Payload)
    (validate_claims : Payload → Except String Unit)
    (user_resolver : String → Payload → Except String U)
    (request : String) : AuthResult U :=
  match get_jwt_value s request with
  | JwtValueResult.noCredential => AuthResult.noAuth
  | JwtValueResult.failed m => AuthResult.failure m
  | JwtValueResult.token jwt =>
      match decode_jwt jwt with
      | Except.error m => AuthResult.failure m
      | Except.ok payload0 =>
          let payload := normalize_amr payload0
          match validate_claims payload with
          | Except.error m => AuthResult.failure m
          | Except.ok _ =>
              match user_resolver request payload with
              | Except.error m => AuthResult.failure m
              | Except.ok user =>
                  let auth : UserAuthorization U :=
                    UserAuthorization.mk user payload s
                  if s.REQUIRE_API_SCOPE_FOR_AUTHENTICATION then
                    if hasApiScopeWithPrefix auth s.API_SCOPE_PREFIX then
                      AuthResult.success user auth
                    else
                      AuthResult.failure (scope_error_message s.API_SCOPE_PREFIX)
                  else
                    AuthResult.success user auth

/-- `ApiTokenAuthentication.get_oidc_config` (lines 47–52), with the HTTP
layer as an oracle: resolve the issuer (first entry when the setting is a
sequence; Python raises `IndexError` on an empty sequence, modelled as
`none`) and GET `<issuer>/.well-known/openid-configuration`. -/
def get_oidc_config (s : Settings) (http_get : String → JValue) : Option JValue :=
  match s.ISSUER with
  | StrOrList.str v => some (http_get (v ++ "/.well-known/openid-configuration"))
  | StrOrList.list [] => none
  | StrOrList.list (v :: _) =>
      some (http_get (v ++ "/.well-known/openid-configuration"))

/-- State of the memoizing TTL cache: the stored value with its storage
time, and a count of the fetches performed so far. -/
structure CacheState (α : Type) where
  entry : Option (α × Nat)
  fetches : Nat

/-- Modelled from the spec: the `@cache(ttl=…)` decorator wrapping
`get_oidc_config` (line 46) comes from the external drf-oidc-auth
dependency; `spec.md` §4.2 specifies it: a call within the TTL window
returns the cached value with no new fetch; a call on a missing or expired
entry performs exactly one fetch whose result replaces the entry. -/
def cache_call {α : Type} (ttl : Nat) (fetch : Nat → α) (now : Nat)
    (st : CacheState α) : α × CacheState α :=
  match st.entry with
  | some (v, t0) =>
      if now < t0 + ttl then (v, st)
      else (fetch now, CacheState.mk (some (fetch now, now)) (st.fetches + 1))
  | none => (fetch now, CacheState.mk (some (fetch now, now)) (st.fetches + 1))

/-! ### Concrete inputs used by the witnesses -/

/-- Example settings: the scenario of `spec.md` §8 (audience `"api"`,
issuer `https://idp.example`, scheme `Bearer`, API scope required with
`API_SCOPE_PREFIX = "myapi"`). -/
def exS : Settings :=
  Settings.mk (StrOrList.str "api") (StrOrList.str "https://idp.example")
    (some "Bearer") true "myapi" 600

/-- Example settings whose `AUDIENCE` is a sequence of strings. -/
def exSList : Settings :=
  Settings.mk (StrOrList.list ["api-a", "api-b"]) (StrOrList.str "https://idp.example")
    (some "Bearer") false "myapi" 600

/-- Example decoded payload carrying the required API scope. -/
def exPayloadGood : Payload := [("scope", JValue.str "myapi.read openid")]

/-- Example decoded payload lacking the required API scope. -/
def exPayloadBad : Payload := [("scope", JValue.str "openid profile")]

/-! ### Claim theorems -/

/-- Claim C1: `claims_options` marks the `aud` claim essential with the
configured audience set, normalized to a list when the `AUDIENCE` setting is
a single string; hence a payload with no `aud` claim at all fails the
essential-claims check rather than passing with an unchecked audience. -/
theorem aud_claim_essential (s : Settings) (base : List (String × ClaimOption))
    (p : Payload) (hp : dictGet p "aud" = none) :
    dictGet (claims_options s base) "aud"
      = some (ClaimOption.mk true (audList s.AUDIENCE)) ∧
    (∀ v, s.AUDIENCE = StrOrList.str v → audList s.AUDIENCE = [v]) ∧
    essential_check (claims_options s base) p = false := by
  refine ⟨dictGet_dictSet_same base "aud" _, fun v hv => by rw [hv]; rfl, ?_⟩
  have hmem : ("aud", ClaimOption.mk true (audList s.AUDIENCE)) ∈ claims_options s base :=
    mem_dictSet_same base "aud" _
  cases hall : essential_check (claims_options s base) p with
  | false => rfl
  | true =>
      have := List.all_eq_true.mp hall _ hmem
      simp [hp] at this

/-- Witness for C1 at concrete inputs. -/
theorem aud_claim_essential_witness :
    essential_check (claims_options exS []) [("iss", JValue.str "idp")] = false :=
  (aud_claim_essential exS [] [("iss", JValue.str "idp")] rfl).2.2

/-- Claim C2: when `REQUIRE_API_SCOPE_FOR_AUTHENTICATION` is enabled and a
request reaches the scope-check step, `authenticate` fails with a message
naming the required scope prefix if `hasApiScopeWithPrefix` is false, and
returns the `(user, authorization)` pair if it is true. -/
theorem authenticate_scope_check {U : Type} (s : Settings)
    (dj : String → Except String Payload)
    (vc : Payload → Except String Unit)
    (ur : String → Payload → Except String U)
    (req jwt : String) (p0 : Payload) (u : U)
    (hjwt : get_jwt_value s req = JwtValueResult.token jwt)
    (hdec : dj jwt = Except.ok p0)
    (hval : vc (normalize_amr p0) = Except.ok ())
    (hres : ur req (normalize_amr p0) = Except.ok u)
    (hreq : s.REQUIRE_API_SCOPE_FOR_AUTHENTICATION = true) :
    (hasApiScopeWithPrefix (UserAuthorization.mk u (normalize_amr p0) s)
        s.API_SCOPE_PREFIX = false →
      authenticate s dj vc ur req
        = AuthResult.failure (scope_error_message s.API_SCOPE_PREFIX)) ∧
    (hasApiScopeWithPrefix (UserAuthorization.mk u (normalize_amr p0) s)
        s.API_SCOPE_PREFIX = true →
      authenticate s dj vc ur req
        = AuthResult.success u (UserAuthorization.mk u (normalize_amr p0) s)) := by
  constructor <;> intro h <;> simp [authenticate, hjwt, hdec, hval, hres, hreq, h]

/-- Witness for C2: the `spec.md` §8 denial scenario — token scope
`"openid profile"`, required prefix `"myapi"`. -/
theorem authenticate_scope_check_witness :
    authenticate exS (fun _ => Except.ok exPayloadBad) (fun _ => Except.ok ())
        (fun _ _ => Except.ok (0 : Nat)) "Bearer abc"
      = AuthResult.failure (scope_error_message "myapi") :=
  (authenticate_scope_check exS (fun _ => Except.ok exPayloadBad)
      (fun _ => Except.ok ()) (fun _ _ => Except.ok (0 : Nat))
      "Bearer abc" "abc" exPayloadBad 0 rfl rfl rfl rfl rfl).1 rfl

/-- Claim C3: a request whose `Authorization` header is absent (empty),
empty, or whose first whitespace-separated token does not case-insensitively
equal the configured auth scheme yields the no-credential result, and
`authenticate` returns `None` rather than any failure. -/
theorem get_jwt_value_no_credential {U : Type} (s : Settings) (header : String)
    (h : pySplit header = [] ∨
         lowerStr ((pySplit header).headD "") ≠ lowerStr (auth_scheme s)) :
    get_jwt_value s header = JwtValueResult.noCredential ∧
    ∀ (dj : String → Except String Payload) (vc : Payload → Except String Unit)
      (ur : String → Payload → Except String U),
      authenticate s dj vc ur header = AuthResult.noAuth := by
  have h1 : get_jwt_value s header = JwtValueResult.noCredential := by
    unfold get_jwt_value
    rw [if_pos h]
  refine ⟨h1, fun dj vc ur => ?_⟩
  simp [authenticate, h1]

/-- Witness for C3: a `Basic` header against the `Bearer` scheme. -/
theorem get_jwt_value_no_credential_witness :
    get_jwt_value exS "Basic abc" = JwtValueResult.noCredential ∧
    authenticate exS (fun _ => Except.ok exPayloadGood) (fun _ => Except.ok ())
        (fun _ _ => Except.ok (0 : Nat)) "Basic abc" = AuthResult.noAuth := by
  have h := @get_jwt_value_no_credential Nat exS "Basic abc" (Or.inr (by decide))
  exact ⟨h.1, h.2 _ _ _⟩

/-- Claim C4: for a header whose first token case-insensitively matches the
scheme — one token fails with "no credentials provided", more than two
tokens fails with the no-spaces message, and exactly two tokens returns the
second token as the raw credential. -/
theorem get_jwt_value_malformed (s : Settings) (header : String)
    (hne : pySplit header ≠ [])
    (hsch : lowerStr ((pySplit header).headD "") = lowerStr (auth_scheme s)) :
    ((pySplit header).length = 1 →
      get_jwt_value s header
        = JwtValueResult.failed "Invalid Authorization header. No credentials provided") ∧
    ((pySplit header).length > 2 →
      get_jwt_value s header
        = JwtValueResult.failed
            "Invalid Authorization header. Credentials string should not contain spaces.") ∧
    (∀ t1 t2, pySplit header = [t1, t2] →
      get_jwt_value s header = JwtValueResult.token t2) := by
  have hcond : ¬(pySplit header = [] ∨
      lowerStr ((pySplit header).headD "") ≠ lowerStr (auth_scheme s)) := by
    push_neg
    exact ⟨hne, hsch⟩
  refine ⟨fun h1 => ?_, fun h2 => ?_, fun t1 t2 ht => ?_⟩
  · unfold get_jwt_value
    rw [if_neg hcond, if_pos h1]
  · unfold get_jwt_value
    rw [if_neg hcond, if_neg (by omega : ¬(pySplit header).length = 1), if_pos h2]
  · unfold get_jwt_value
    rw [if_neg hcond, ht]
    simp

/-- Witness for C4: scheme-only header fails with "no credentials
provided". -/
theorem get_jwt_value_malformed_witness :
    get_jwt_value exS "Bearer"
      = JwtValueResult.failed "Invalid Authorization header. No credentials provided" :=
  (get_jwt_value_malformed exS "Bearer" (by decide) (by decide)).1 (by decide)

/-- Claim C5: the `amr` normalization replaces a single-string `amr` claim
by the one-element sequence holding it, leaves a sequence-valued `amr`
unchanged, and is idempotent. -/
theorem normalize_amr_idempotent :
    (∀ (p : Payload) (s : String), dictGet p "amr" = some (JValue.str s) →
      dictGet (normalize_amr p) "amr" = some (JValue.arr [JValue.str s])) ∧
    (∀ (p : Payload) (l : List JValue), dictGet p "amr" = some (JValue.arr l) →
      normalize_amr p = p) ∧
    (∀ p : Payload, normalize_amr (normalize_amr p) = normalize_amr p) := by
  refine ⟨?_, ?_, ?_⟩
  · intro p s h
    rw [normalize_amr_of_str p s h, dictGet_dictSet_same]
  · intro p l h
    exact normalize_amr_of_not_str p (fun s hs => by rw [h] at hs; cases hs)
  · intro p
    cases hg : dictGet p "amr" with
    | none =>
        have h0 := normalize_amr_of_not_str p (fun s hs => by rw [hg] at hs; cases hs)
        rw [h0]
        exact h0
    | some v =>
        cases v with
        | str s =>
            have h1 := normalize_amr_of_str p s hg
            have h2 : dictGet (normalize_amr p) "amr"
                = some (JValue.arr [JValue.str s]) := by
              rw [h1]
              exact dictGet_dictSet_same p "amr" _
            exact normalize_amr_of_not_str (normalize_amr p)
              (fun s' hs => by rw [h2] at hs; cases hs)
        | arr l =>
            have h0 := normalize_amr_of_not_str p (fun s hs => by rw [hg] at hs; cases hs)
            rw [h0]
            exact h0
        | num n =>
            have h0 := normalize_amr_of_not_str p (fun s hs => by rw [hg] at hs; cases hs)
            rw [h0]
            exact h0
        | bool b =>
            have h0 := normalize_amr_of_not_str p (fun s hs => by rw [hg] at hs; cases hs)
            rw [h0]
            exact h0
        | null =>
            have h0 := normalize_amr_of_not_str p (fun s hs => by rw [hg] at hs; cases hs)
            rw [h0]
            exact h0

/-- Witness for C5: `amr = "pwd"` becomes `amr = ["pwd"]`. -/
theorem normalize_amr_idempotent_witness :
    dictGet (normalize_amr [("amr", JValue.str "pwd")]) "amr"
      = some (JValue.arr [JValue.str "pwd"]) :=
  normalize_amr_idempotent.1 [("amr", JValue.str "pwd")] "pwd" rfl

/-- Claim C6: `get_oidc_config` resolves the effective issuer as the setting
itself when it is a string and as the first entry when it is a sequence, and
returns the body fetched from `<issuer>/.well-known/openid-configuration`. -/
theorem get_oidc_config_url (s : Settings) (http : String → JValue) :
    (∀ v, s.ISSUER = StrOrList.str v →
      get_oidc_config s http
        = some (http (v ++ "/.well-known/openid-configuration"))) ∧
    (∀ v rest, s.ISSUER = StrOrList.list (v :: rest) →
      get_oidc_config s http
        = some (http (v ++ "/.well-known/openid-configuration"))) := by
  constructor
  · intro v hv
    simp [get_oidc_config, hv]
  · intro v rest hv
    simp [get_oidc_config, hv]

/-- Witness for C6: fetching with an echoing HTTP oracle yields the
well-known discovery URL of the configured issuer. -/
theorem get_oidc_config_url_witness :
    get_oidc_config exS (fun u => JValue.str u)
      = some (JValue.str "https://idp.example/.well-known/openid-configuration") :=
  (get_oidc_config_url exS (fun u => JValue.str u)).1 "https://idp.example" rfl

/-- Claim C7: starting from an empty cache, a call at `t1` performs one
fetch and stores its result; a second call at `t2` within the TTL window
returns the same cached value with no further fetch; a call after TTL
expiry performs exactly one fresh fetch whose result replaces the entry. -/
theorem cache_ttl {α : Type} (ttl : Nat) (fetch : Nat → α) (t1 t2 : Nat) :
    (cache_call ttl fetch t1 (CacheState.mk none 0)
        = (fetch t1, CacheState.mk (some (fetch t1, t1)) 1)) ∧
    (t2 < t1 + ttl →
      cache_call ttl fetch t2 (CacheState.mk (some (fetch t1, t1)) 1)
        = (fetch t1, CacheState.mk (some (fetch t1, t1)) 1)) ∧
    (¬ t2 < t1 + ttl →
      cache_call ttl fetch t2 (CacheState.mk (some (fetch t1, t1)) 1)
        = (fetch t2, CacheState.mk (some (fetch t2, t2)) 2)) := by
  refine ⟨rfl, fun h => ?_, fun h => ?_⟩
  · simp [cache_call, h]
  · simp [cache_call, h]

/-- Witness for C7 at concrete times and TTL. -/
theorem cache_ttl_witness :
    cache_call 600 (fun t => t) 10 (CacheState.mk (some ((fun t : Nat => t) 0, 0)) 1)
      = ((fun t : Nat => t) 0, CacheState.mk (some ((fun t : Nat => t) 0, 0)) 1) :=
  (cache_ttl 600 (fun t => t) 0 10).2.1 (by decide)

/-- Claim C8: the user resolver is only invoked after claim validation
succeeds — when validation fails, `authenticate` fails with the validation
message and its result does not depend on the resolver at all — and a
`ValueError` from the resolver becomes an `AuthenticationFailed` carrying
exactly the resolver's message. -/
theorem user_resolver_after_validation {U : Type} (s : Settings)
    (dj : String → Except String Payload)
    (vc : Payload → Except String Unit)
    (ur ur2 : String → Payload → Except String U)
    (req jwt : String) (p0 : Payload)
    (hjwt : get_jwt_value s req = JwtValueResult.token jwt)
    (hdec : dj jwt = Except.ok p0) :
    (∀ m, vc (normalize_amr p0) = Except.error m →
      authenticate s dj vc ur req = AuthResult.failure m ∧
      authenticate s dj vc ur req = authenticate s dj vc ur2 req) ∧
    (∀ m, vc (normalize_amr p0) = Except.ok () →
      ur req (normalize_amr p0) = Except.error m →
      authenticate s dj vc ur req = AuthResult.failure m) := by
  constructor
  · intro m hv
    constructor <;> simp [authenticate, hjwt, hdec, hv]
  · intro m hv hr
    simp [authenticate, hjwt, hdec, hv, hr]

/-- Witness for C8: a failing validator makes `authenticate` fail with the
validator's message, before any resolver runs. -/
theorem user_resolver_after_validation_witness :
    authenticate exS (fun _ => Except.ok exPayloadGood)
        (fun _ => Except.error "bad audience")
        (fun _ _ => Except.ok (0 : Nat)) "Bearer abc"
      = AuthResult.failure "bad audience" :=
  ((user_resolver_after_validation exS (fun _ => Except.ok exPayloadGood)
      (fun _ => Except.error "bad audience") (fun _ _ => Except.ok (0 : Nat))
      (fun _ _ => Except.error "ignored") "Bearer abc" "abc" exPayloadGood
      rfl rfl).1 "bad audience" rfl).1

/-- Claim C9 counterexample: with `AUDIENCE = ["api-a", "api-b"]`, the
legacy `get_audiences` does NOT operate on the normalized audience list —
it returns a one-element set holding the raw sequence value. -/
theorem get_audiences_not_normalized :
    get_audiences exSList ≠ (audList exSList.AUDIENCE).map StrOrList.str := by
  decide

/-- Claim C9 (amended): `claims_options` normalizes `AUDIENCE` to list form,
but `get_audiences` returns a one-element set holding the raw setting value;
the two agree only when `AUDIENCE` is a single string. -/
theorem audience_consumers (s : Settings) (base : List (String × ClaimOption)) :
    dictGet (claims_options s base) "aud"
      = some (ClaimOption.mk true (audList s.AUDIENCE)) ∧
    get_audiences s = [s.AUDIENCE] ∧
    (∀ v, s.AUDIENCE = StrOrList.str v →
      get_audiences s = (audList s.AUDIENCE).map StrOrList.str) := by
  refine ⟨dictGet_dictSet_same base "aud" _, rfl, ?_⟩
  intro v hv
  simp [get_audiences, audList, hv]

/-- Witness for C9 (amended): with a single-string audience the raw and
normalized forms coincide. -/
theorem audience_consumers_witness :
    get_audiences exS = (audList exS.AUDIENCE).map StrOrList.str :=
  (audience_consumers exS []).2.2 "api" rfl

/-- Claim C10: the `amr` normalization is frame-preserving — every claim
other than `amr` is unchanged, and when `amr` is absent or not a string the
payload is returned exactly as decoded. -/
theorem normalize_amr_frame :
    (∀ (p : Payload) (k : String), k ≠ "amr" →
      dictGet (normalize_amr p) k = dictGet p k) ∧
    (∀ p : Payload, (∀ s, dictGet p "amr" ≠ some (JValue.str s)) →
      normalize_amr p = p) := by
  refine ⟨?_, normalize_amr_of_not_str⟩
  intro p k hk
  unfold normalize_amr
  cases hg : dictGet p "amr" with
  | none => rfl
  | some v =>
      cases v with
      | str s => exact dictGet_dictSet_ne p "amr" k _ hk
      | arr l => rfl
      | num n => rfl
      | bool b => rfl
      | null => rfl

/-- Witness for C10: normalizing `amr` leaves the `iss` claim untouched. -/
theorem normalize_amr_frame_witness :
    dictGet (normalize_amr [("amr", JValue.str "pwd"), ("iss", JValue.str "idp")]) "iss"
      = dictGet [("amr", JValue.str "pwd"), ("iss", JValue.str "idp")] "iss" :=
  normalize_amr_frame.1 [("amr", JValue.str "pwd"), ("iss", JValue.str "idp")] "iss"
    (by decide)

end Helusers
